import Mathlib

/-!
Shallow embedding of the multi-provider completion router of the Omnitutor
repository (src/hooks/useAI.ts `sendMessage`, and the Gemini service's
`getSystemInstruction`).  Provider backends are modelled as oracles supplied
through an `Env` record; the router's observable behaviour (returned or raised
value, final hook state, how many times each provider was invoked, and the
backoff waits performed) is collected in an `Outcome` record.
-/

namespace Omnitutor

/-- Modelled from the spec: the `Role` enum of the missing `src/types.ts`
(spec section 3: `role: USER | ASSISTANT`). -/
inductive Role where
  | user
  | assistant
deriving DecidableEq

/-- Modelled from the spec: the `Subject` string enum of the missing
`src/types.ts` (spec section 3: "MATH, PHYSICS, CHEMISTRY, CODING, GENERAL"). -/
inductive Subject where
  | math
  | physics
  | chemistry
  | coding
  | general
deriving DecidableEq

/-- Modelled from the spec: the string value of each `Subject` enum member,
interpolated into instruction templates via `${subject}`. -/
def subjectStr : Subject → String
  | .math => "Math"
  | .physics => "Physics"
  | .chemistry => "Chemistry"
  | .coding => "Coding"
  | .general => "General"

/-- Attachment kind (`type` field of the attachment argument in useAI.ts). -/
inductive AttachKind where
  | image
  | text
deriving DecidableEq

/-- The attachment argument of `sendMessage` (useAI.ts line 18):
`{ content: string, type: 'image' | 'text', mimeType?: string }`. -/
structure Attachment where
  content : String
  kind : AttachKind
  mimeType : Option String
deriving DecidableEq

/-- Modelled from the spec: the `Message` record of the missing `src/types.ts`
(spec section 3), as consumed by useAI.ts history mapping. -/
structure Message where
  role : Role
  content : String
  attachment : Option Attachment
deriving DecidableEq

/-- Boolean check that the pattern list occurs at the head of the list. -/
def listPrefixOf : List Char → List Char → Bool
  | [], _ => true
  | _ :: _, [] => false
  | a :: as, b :: bs => a = b && listPrefixOf as bs

/-- Boolean check that the pattern occurs somewhere in the list
(JavaScript `String.prototype.includes`). -/
def listOccurs (pat : List Char) : List Char → Bool
  | [] => listPrefixOf pat []
  | c :: rest => listPrefixOf pat (c :: rest) || listOccurs pat rest

/-- `strContains s pat` models JavaScript `s.includes(pat)`. -/
def strContains (s pat : String) : Bool :=
  listOccurs pat.data s.data

/-- A thrown JavaScript error: its `message` and optional numeric `status`. -/
structure ProviderErr where
  msg : String
  status : Option Nat
deriving DecidableEq

/-- useAI.ts line 147: `geminiErr.message?.includes('429') || geminiErr.status === 429`. -/
def is429 (e : ProviderErr) : Bool :=
  strContains e.msg "429" || e.status == some 429

/-- The quantitative-subject membership test of useAI.ts line 25:
`[Subject.MATH, Subject.PHYSICS, Subject.CHEMISTRY].includes(subject)`. -/
def isQuant : Subject → Bool
  | .math => true
  | .physics => true
  | .chemistry => true
  | _ => false

/-- The system instruction built by useAI.ts lines 24-27. -/
def mkSystemInstruction (subject : Subject) : String :=
  let base := "You are an expert " ++ subjectStr subject ++
    " tutor. If the user asks for a comparison or list, ALWAYS format the output as a Markdown Table."
  if isQuant subject then
    base ++ " Use LaTeX for all math equations. Wrap block equations in $$ and inline in $. Provide clear, step-by-step explanations."
  else
    base

/-- The Gemini service's `getSystemInstruction` (useAI.ts lines 301-318). -/
def getSystemInstruction (subject : Subject) : String :=
  let baseInstruction := "You are a helpful, expert tutor specializing in " ++ subjectStr subject ++ "."
  if isQuant subject then
    baseInstruction ++ " \n    - CRITICAL: You MUST use LaTeX formatting for all mathematical equations, formulas, and symbols.\n    - Wrap block equations in double dollar signs: $$ ... $$\n    - Wrap inline equations in single dollar signs: $ ... $\n    - Explain concepts step-by-step.\n    - If the user makes a mistake, gently correct them."
  else if subject = Subject.coding then
    baseInstruction ++ " Provide clean, well-commented code snippets. Explain the logic behind the code."
  else
    baseInstruction ++ " Be concise and clear."

/-- Character-level model of JavaScript `String.prototype.split(',')`. -/
def splitCommaChars : List Char → List (List Char)
  | [] => [[]]
  | c :: rest =>
    if c = ',' then
      [] :: splitCommaChars rest
    else
      match splitCommaChars rest with
      | s :: ss => (c :: s) :: ss
      | [] => [[c]]

/-- `jsSplitComma s` models JavaScript `s.split(',')`. -/
def jsSplitComma (s : String) : List String :=
  (splitCommaChars s.data).map fun l => ⟨l⟩

/-- useAI.ts line 57: `attachment.content.split(',')[1] || attachment.content`
(`split(',')[1]` is `undefined` when there is no comma, and the empty string is
falsy, so both fall back to the full content). -/
def extractBase64 (content : String) : String :=
  match (jsSplitComma content)[1]? with
  | some s => if s = "" then content else s
  | none => content

/-- One element of the `promptParts` array sent to Gemini Vision. -/
inductive Part where
  | text (t : String)
  | inlineData (data : String) (mimeType : String)
deriving DecidableEq

/-- The `promptParts` array built by useAI.ts lines 54-64: the prompt text,
then — when the attachment is present with truthy content — an `inlineData`
part whose data is `extractBase64` of the content and whose MIME type is
`attachment.mimeType || "image/jpeg"`. -/
def visionParts (text : String) (attachment : Option Attachment) : List Part :=
  Part.text text ::
    match attachment with
    | some a =>
      if a.content = "" then []
      else
        [Part.inlineData (extractBase64 a.content)
          (match a.mimeType with
           | some m => if m = "" then "image/jpeg" else m
           | none => "image/jpeg")]
    | none => []

/-- One Groq chat message (`{ role, content }`). -/
structure GroqMsg where
  role : String
  content : String
deriving DecidableEq

/-- The Groq mapping of one history message (useAI.ts lines 93-96): role
`"user"`/`"assistant"`, content with a TEXT attachment's content appended
after the `"\n[File]: "` delimiter. -/
def toGroqTurn (m : Message) : GroqMsg :=
  { role := if m.role = Role.user then "user" else "assistant"
    content := m.content ++
      match m.attachment with
      | some a => if a.kind = AttachKind.text then "\n[File]: " ++ a.content else ""
      | none => "" }

/-- The provider-facing Groq history derived from the caller's message log. -/
def groqTurns (prev : List Message) : List GroqMsg :=
  prev.map toGroqTurn

/-- The full Groq `messages` array (useAI.ts lines 91-98): system instruction,
mapped history, then the final user prompt. -/
def groqMessages (sys : String) (prev : List Message) (finalPrompt : String) : List GroqMsg :=
  { role := "system", content := sys } :: groqTurns prev ++ [{ role := "user", content := finalPrompt }]

/-- One Gemini history turn (`{ role, parts: [{ text }] }`). -/
structure GeminiTurn where
  role : String
  parts : List String
deriving DecidableEq

/-- The Gemini mapping of one history message (useAI.ts lines 127-130): role
`"user"`/`"model"`, parts holding the message content only. -/
def toGeminiTurn (m : Message) : GeminiTurn :=
  { role := if m.role = Role.user then "user" else "model"
    parts := [m.content] }

/-- The Gemini chat history derived from the caller's message log. -/
def geminiHistory (prev : List Message) : List GeminiTurn :=
  prev.map toGeminiTurn

/-- The final prompt sent to Groq (useAI.ts lines 85-88): the user text with a
TEXT attachment's content inlined. -/
def groqFinalPrompt (text : String) (attachment : Option Attachment) : String :=
  text ++
    match attachment with
    | some a => if a.kind = AttachKind.text then "\n\n[Attached File Content]:\n" ++ a.content else ""
    | none => ""

/-- The message sent to the Gemini fallback chat (useAI.ts line 144): the user
text with a TEXT attachment's content inlined. -/
def fallbackText (text : String) (attachment : Option Attachment) : String :=
  text ++
    match attachment with
    | some a => if a.kind = AttachKind.text then "\n\nFile Content:\n" ++ a.content else ""
    | none => ""

/-- JavaScript falsiness of an optional environment string: absent or empty. -/
def falsyOpt : Option String → Bool
  | none => true
  | some s => s = ""

instance {ε α : Type} [DecidableEq ε] [DecidableEq α] : DecidableEq (Except ε α) := fun x y =>
  match x, y with
  | .ok a, .ok b =>
    if h : a = b then isTrue (by rw [h]) else isFalse (by intro hh; cases hh; exact h rfl)
  | .error a, .error b =>
    if h : a = b then isTrue (by rw [h]) else isFalse (by intro hh; cases hh; exact h rfl)
  | .ok _, .error _ => isFalse (by intro hh; cases hh)
  | .error _, .ok _ => isFalse (by intro hh; cases hh)

/-- Result of running the retry loop: the returned or thrown value, the number
of provider attempts made, and the backoff waits performed (in milliseconds). -/
structure RetryRun where
  result : Except ProviderErr String
  attempts : Nat
  waits : List Nat
deriving DecidableEq

/-- The body of the retry loop of useAI.ts lines 142-158, with explicit fuel:
the loop runs while `attempt <= maxRetries` (fuel is the number of remaining
loop iterations, `maxRetries + 1 - attempt`); each iteration invokes the
provider once, retrying after a 3000 ms wait only on a 429 error while
`attempt < maxRetries`, and otherwise rethrowing; if the loop ever exits
without returning or throwing, line 158 throws "Max retries exceeded on
fallback.". -/
def retryAux (f : Nat → Except ProviderErr String) (maxRetries : Nat) :
    Nat → Nat → RetryRun
  | 0, _ => ⟨.error ⟨"Max retries exceeded on fallback.", none⟩, 0, []⟩
  | fuel + 1, attempt =>
    match f attempt with
    | .ok s => ⟨.ok s, 1, []⟩
    | .error e =>
      if is429 e && attempt < maxRetries then
        let r := retryAux f maxRetries fuel (attempt + 1)
        ⟨r.result, r.attempts + 1, 3000 :: r.waits⟩
      else
        ⟨.error e, 1, []⟩

/-- The retry loop of useAI.ts lines 142-158, started at `attempt = 0`. -/
def retryLoop (f : Nat → Except ProviderErr String) (maxRetries : Nat) : RetryRun :=
  retryAux f maxRetries (maxRetries + 1) 0

/-- Provider oracles and credential environment for one `sendMessage` run.
Each oracle receives the request the code builds for it; the Gemini text
oracle additionally receives the attempt index, so that per-attempt backend
behaviour (success, 429, other failure) can be stubbed. -/
structure Env where
  groqApiKey : Option String
  geminiApiKey : Option String
  groqRespond : List GroqMsg → Except ProviderErr (Option String)
  geminiVision : String → List Part → Except ProviderErr String
  geminiText : String → List GeminiTurn → String → Nat → Except ProviderErr String

/-- Observable outcome of one `sendMessage` run: the returned or raised value,
the final values of the hook state (`isLoading`, `error`, `statusMessage`),
the number of calls made to each backend, and the backoff waits performed. -/
structure Outcome where
  result : Except ProviderErr String
  isLoading : Bool
  finalError : Option String
  statusMessage : Option String
  groqCalls : Nat
  visionCalls : Nat
  geminiTextCalls : Nat
  waits : List Nat

/-- Result of the Gemini fallback block (useAI.ts lines 116-164). -/
structure FallbackRun where
  result : Except ProviderErr String
  calls : Nat
  waits : List Nat
  errorSet : Option String
  status : String

/-- The Gemini fallback block of useAI.ts lines 116-164: a missing key throws
before any network attempt; otherwise the retry loop runs against the Gemini
chat; the final `statusMessage` is the last one set ("Traffic high. Switching
to backup AI..." before the block, overwritten by "Server busy. Retrying
backup connection..." before each backoff wait); the catch at lines 160-164
records `finalError.message || "All AI services are currently busy."` and
rethrows. -/
def runFallback (env : Env) (sys : String) (prev : List Message) (sendText : String) :
    FallbackRun :=
  if falsyOpt env.geminiApiKey then
    ⟨.error ⟨"Gemini API Key missing", none⟩, 0, [],
      some "Gemini API Key missing", "Traffic high. Switching to backup AI..."⟩
  else
    let r := retryLoop (env.geminiText sys (geminiHistory prev) sendText) 1
    let status :=
      if r.waits.isEmpty then "Traffic high. Switching to backup AI..."
      else "Server busy. Retrying backup connection..."
    match r.result with
    | .ok s => ⟨.ok s, r.attempts, r.waits, none, status⟩
    | .error e =>
      ⟨.error e, r.attempts, r.waits,
        some (if e.msg = "" then "All AI services are currently busy." else e.msg), status⟩

/-- Assemble a text-route outcome that went to the Gemini fallback, with the
given number of Groq calls already made. -/
def fallbackOutcome (env : Env) (sys : String) (prev : List Message) (sendText : String)
    (groqCalls : Nat) : Outcome :=
  let f := runFallback env sys prev sendText
  { result := f.result
    isLoading := true
    finalError := f.errorSet
    statusMessage := some f.status
    groqCalls := groqCalls
    visionCalls := 0
    geminiTextCalls := f.calls
    waits := f.waits }

/-- Whether the request carries an image attachment (useAI.ts line 33). -/
def hasImageOf : Option Attachment → Bool
  | some a => a.kind = AttachKind.image
  | none => false

/-- The `sendMessage` router of useAI.ts lines 18-167.  The hook state starts
each call as `isLoading := true`, `error := null`, `statusMessage := null`;
this variant never resets `isLoading` (it has no `finally` block), so the
outcome records the state as left at the point of return or throw. -/
def sendMessage (env : Env) (text : String) (subject : Subject)
    (previousMessages : List Message) (attachment : Option Attachment) : Outcome :=
  let systemInstruction := mkSystemInstruction subject
  if hasImageOf attachment then
    if falsyOpt env.geminiApiKey then
      { result := .error ⟨"Gemini API Key missing", none⟩
        isLoading := true
        finalError := some "Gemini API Key missing"
        statusMessage := some "Analyzing image..."
        groqCalls := 0, visionCalls := 0, geminiTextCalls := 0, waits := [] }
    else
      match env.geminiVision systemInstruction (visionParts text attachment) with
      | .ok s =>
        { result := .ok s
          isLoading := true
          finalError := none
          statusMessage := some "Analyzing image..."
          groqCalls := 0, visionCalls := 1, geminiTextCalls := 0, waits := [] }
      | .error e =>
        { result := .error e
          isLoading := true
          finalError := some (if e.msg = "" then "Failed to analyze image." else e.msg)
          statusMessage := some "Analyzing image..."
          groqCalls := 0, visionCalls := 1, geminiTextCalls := 0, waits := [] }
  else
    if falsyOpt env.groqApiKey then
      fallbackOutcome env systemInstruction previousMessages (fallbackText text attachment) 0
    else
      match env.groqRespond (groqMessages systemInstruction previousMessages
          (groqFinalPrompt text attachment)) with
      | .ok (some s) =>
        if s = "" then
          fallbackOutcome env systemInstruction previousMessages (fallbackText text attachment) 1
        else
          { result := .ok s
            isLoading := true
            finalError := none
            statusMessage := none
            groqCalls := 1, visionCalls := 0, geminiTextCalls := 0, waits := [] }
      | .ok none =>
        fallbackOutcome env systemInstruction previousMessages (fallbackText text attachment) 1
      | .error _ =>
        fallbackOutcome env systemInstruction previousMessages (fallbackText text attachment) 1

/-! Helper lemmas about the comma-splitting model. -/

theorem splitCommaChars_ne_nil (l : List Char) : splitCommaChars l ≠ [] := by
  induction l with
  | nil => simp [splitCommaChars]
  | cons c rest ih =>
    by_cases hc : c = ','
    · simp [splitCommaChars, hc]
    · simp only [splitCommaChars, if_neg hc]
      cases h : splitCommaChars rest with
      | nil => simp
      | cons s ss => simp

theorem splitCommaChars_no_comma (l : List Char) (h : ',' ∉ l) : splitCommaChars l = [l] := by
  induction l with
  | nil => rfl
  | cons c rest ih =>
    have hc : c ≠ ',' := fun e => h (e ▸ List.mem_cons_self c rest)
    have hr : ',' ∉ rest := fun m => h (List.mem_cons_of_mem _ m)
    simp [splitCommaChars, hc, ih hr]

theorem splitCommaChars_append (a b : List Char) (h : ',' ∉ a) :
    splitCommaChars (a ++ ',' :: b) = a :: splitCommaChars b := by
  induction a with
  | nil => simp [splitCommaChars]
  | cons c rest ih =>
    have hc : c ≠ ',' := fun e => h (e ▸ List.mem_cons_self c rest)
    have hr : ',' ∉ rest := fun m => h (List.mem_cons_of_mem _ m)
    simp [splitCommaChars, hc, ih hr]

/-! Helper lemmas about the retry loop. -/

theorem retryAux_attempts_le (f : Nat → Except ProviderErr String) (m : Nat) :
    ∀ fuel attempt, (retryAux f m fuel attempt).attempts ≤ fuel := by
  intro fuel
  induction fuel with
  | zero => intro attempt; simp [retryAux]
  | succ n ih =>
    intro attempt
    simp only [retryAux]
    cases f attempt with
    | ok s => simp
    | error e =>
      by_cases h : (is429 e && decide (attempt < m)) = true
      · simp only [h, if_true]
        exact Nat.succ_le_succ (ih (attempt + 1))
      · simp only [h, if_false]
        exact Nat.succ_le_succ (Nat.zero_le n)

theorem retryAux_waits_eq (f : Nat → Except ProviderErr String) (m : Nat) :
    ∀ fuel attempt w, w ∈ (retryAux f m fuel attempt).waits → w = 3000 := by
  intro fuel
  induction fuel with
  | zero => intro attempt w hw; simp [retryAux] at hw
  | succ n ih =>
    intro attempt w hw
    simp only [retryAux] at hw
    split at hw
    · simp at hw
    · split at hw
      · simp only [] at hw
        rcases List.mem_cons.mp hw with h1 | h2
        · exact h1
        · exact ih (attempt + 1) w h2
      · simp at hw

/-!
## Claim theorems
-/

/-- C10 counterexample: for the image-attachment content "a,b,c" (which
contains a comma), the code sends `"b"` — the segment between the first and
second commas — as the base64 payload, not the substring `"b,c"` after the
first comma as the claim states. -/
theorem c10_counterexample :
    visionParts "t" (some ⟨"a,b,c", AttachKind.image, none⟩) =
      [Part.text "t", Part.inlineData "b" "image/jpeg"] ∧ ("b" : String) ≠ "b,c" := by
  decide

/-- C10 amended: the base64 payload is the full content when the content has
no comma; with exactly one comma and a non-empty tail, it is the part after
the comma; when the part between the first and second commas is empty the
full content is sent unchanged; with two or more commas only the segment
strictly between the first and second commas is sent; and an absent MIME type
defaults to "image/jpeg". -/
theorem c10_amended :
    (∀ c : String, ',' ∉ c.data → extractBase64 c = c) ∧
    (∀ a b : String, ',' ∉ a.data → ',' ∉ b.data → b ≠ "" →
      extractBase64 (a ++ "," ++ b) = b) ∧
    (∀ a : String, ',' ∉ a.data → extractBase64 (a ++ ",") = a ++ ",") ∧
    (∀ a mid post : String, ',' ∉ a.data → ',' ∉ mid.data → mid ≠ "" →
      extractBase64 (a ++ "," ++ mid ++ "," ++ post) = mid) ∧
    (∀ t c, c ≠ "" →
      visionParts t (some ⟨c, AttachKind.image, none⟩) =
        [Part.text t, Part.inlineData (extractBase64 c) "image/jpeg"]) := by
  have hmk : ∀ l : List Char, (⟨l⟩ : String).data = l := fun l => rfl
  have hcomma : ("," : String).data = [','] := rfl
  refine ⟨?_, ?_, ?_, ?_, ?_⟩
  · intro c hc
    rw [extractBase64, jsSplitComma, splitCommaChars_no_comma c.data hc]
    rfl
  · intro a b ha hb hbne
    have hdata : (a ++ "," ++ b).data = a.data ++ ',' :: b.data := by
      simp [String.data_append, hcomma]
    rw [extractBase64, jsSplitComma, hdata, splitCommaChars_append a.data b.data ha,
      splitCommaChars_no_comma b.data hb]
    simp [hbne]
  · intro a ha
    have hdata : (a ++ ",").data = a.data ++ ',' :: [] := by
      simp [String.data_append, hcomma]
    rw [extractBase64, jsSplitComma, hdata, splitCommaChars_append a.data [] ha]
    rfl
  · intro a mid post ha hm hne
    have hdata : (a ++ "," ++ mid ++ "," ++ post).data =
        a.data ++ ',' :: (mid.data ++ ',' :: post.data) := by
      simp [String.data_append, hcomma]
    rw [extractBase64, jsSplitComma, hdata, splitCommaChars_append a.data _ ha,
      splitCommaChars_append mid.data _ hm]
    simp [hne]
  · intro t c hc
    simp [visionParts, hc]

/-- C10 amended witness at concrete inputs. -/
theorem c10_amended_witness :
    extractBase64 "abcdef" = "abcdef" ∧ extractBase64 "xx,yy" = "yy" := by
  refine ⟨c10_amended.1 "abcdef" (by decide), ?_⟩
  exact c10_amended.2.1 "xx" "yy" (by decide) (by decide) (by decide)

/-- The always-rate-limited provider stub. -/
def e429 : ProviderErr := ⟨"429 Too Many Requests", some 429⟩

/-- C4 counterexample: with maxRetries = 1 and a stub failing rate-limited on
every attempt, the retry loop makes exactly 2 attempts (with one 3000 ms
backoff) but then re-raises the last transient rate-limit error itself; the
distinct "Max retries exceeded on fallback." error is not raised. -/
theorem c4_counterexample :
    retryLoop (fun _ => .error e429) 1 = ⟨.error e429, 2, [3000]⟩ ∧
    e429.msg ≠ "Max retries exceeded on fallback." := by
  decide

/-- C4 amended: with maxRetries = 1, when both attempts fail rate-limited,
exactly 2 total attempts are made with one 3000 ms backoff, and the second
attempt's rate-limit error itself is re-raised (the "max retries exceeded"
throw after the loop is not reached). -/
theorem c4_amended (f : Nat → Except ProviderErr String) (e0 e1 : ProviderErr)
    (h0 : f 0 = .error e0) (h1 : f 1 = .error e1)
    (r0 : is429 e0 = true) (r1 : is429 e1 = true) :
    retryLoop f 1 = ⟨.error e1, 2, [3000]⟩ := by
  simp [retryLoop, retryAux, h0, h1, r0, r1]

/-- C4 amended witness: the always-429 stub. -/
theorem c4_amended_witness : retryLoop (fun _ => .error e429) 1 = ⟨.error e429, 2, [3000]⟩ :=
  c4_amended (fun _ => .error e429) e429 e429 rfl rfl (by decide) (by decide)

/-- C7: within the retry policy, a non-rate-limited failure of the first
attempt is propagated immediately after exactly one attempt with no backoff
wait; a rate-limited first failure with remaining budget performs one 3000 ms
wait and continues with the next attempt of the same request; in all runs at
most maxRetries + 1 attempts are made and every backoff wait is exactly
3000 ms. -/
theorem c7_retry_policy (f : Nat → Except ProviderErr String) (m : Nat) :
    (∀ e, f 0 = .error e → is429 e = false → retryLoop f m = ⟨.error e, 1, []⟩) ∧
    (∀ e, f 0 = .error e → is429 e = true → 0 < m →
      retryLoop f m = ⟨(retryAux f m m 1).result, (retryAux f m m 1).attempts + 1,
        3000 :: (retryAux f m m 1).waits⟩) ∧
    (retryLoop f m).attempts ≤ m + 1 ∧
    (∀ w ∈ (retryLoop f m).waits, w = 3000) := by
  refine ⟨?_, ?_, retryAux_attempts_le f m (m + 1) 0, fun w hw => retryAux_waits_eq f m (m + 1) 0 w hw⟩
  · intro e he h429
    simp [retryLoop, retryAux, he, h429]
  · intro e he h429 hm
    simp [retryLoop, retryAux, he, h429, hm]

/-- C7 witness: a non-429 failure propagates immediately with no wait. -/
theorem c7_witness :
    retryLoop (fun _ => .error ⟨"network down", none⟩) 1 = ⟨.error ⟨"network down", none⟩, 1, []⟩ :=
  (c7_retry_policy (fun _ => .error ⟨"network down", none⟩) 1).1 ⟨"network down", none⟩ rfl (by decide)

/-- C9: for every Subject, both instruction builders produce a non-empty
instruction mentioning "expert", "tutor" and the subject's name; for the
quantitative subjects (MATH, PHYSICS, CHEMISTRY) the instruction contains the
block-math delimiter "$$" and the inline-math delimiter "$" (distinct
strings) and a step-by-step directive. -/
theorem c9_system_instruction (s : Subject) :
    mkSystemInstruction s ≠ "" ∧
    strContains (mkSystemInstruction s) "expert" = true ∧
    strContains (mkSystemInstruction s) "tutor" = true ∧
    strContains (mkSystemInstruction s) (subjectStr s) = true ∧
    getSystemInstruction s ≠ "" ∧
    strContains (getSystemInstruction s) "expert tutor" = true ∧
    strContains (getSystemInstruction s) (subjectStr s) = true ∧
    (isQuant s = true →
      strContains (mkSystemInstruction s) "$$" = true ∧
      strContains (mkSystemInstruction s) "$" = true ∧
      strContains (mkSystemInstruction s) "step-by-step" = true ∧
      strContains (getSystemInstruction s) "$$" = true ∧
      strContains (getSystemInstruction s) "$" = true ∧
      strContains (getSystemInstruction s) "step-by-step" = true ∧
      ("$$" : String) ≠ "$") := by
  cases s <;> exact (by set_option maxRecDepth 100000 in decide)

/-- C9 witness at the MATH subject, rate-limit delimiters included. -/
theorem c9_witness :
    mkSystemInstruction Subject.math ≠ "" ∧
    strContains (mkSystemInstruction Subject.math) "$$" = true :=
  ⟨(c9_system_instruction Subject.math).1,
    ((c9_system_instruction Subject.math).2.2.2.2.2.2.2 (by decide)).1⟩

/-- A user message carrying a TEXT attachment, used to exhibit the divergence
between the two history adapters. -/
def msgWithFile : Message := ⟨Role.user, "hi", some ⟨"SECRET", AttachKind.text, none⟩⟩

/-- C8 counterexample: the Gemini history mapping of a message carrying a TEXT
attachment does not append the attachment content to the turn's text — the
turn holds the bare message content and the attachment content "SECRET"
appears nowhere in it (the Groq mapping does append it). -/
theorem c8_counterexample :
    geminiHistory [msgWithFile] = [⟨"user", ["hi"]⟩] ∧
    strContains "hi" "SECRET" = false := by
  decide

/-- C8 amended: both history adapters are total and order-preserving — for N
input messages the output has exactly N turns, pointwise in order, with roles
translated (USER to "user"; ASSISTANT to "assistant" for Groq and "model" for
Gemini) and empty history mapping to the empty sequence; the Groq adapter
appends a TEXT attachment's content to the turn text after the "\n[File]: "
delimiter, while the Gemini adapter keeps only the bare message content. -/
theorem c8_amended (msgs : List Message) :
    (groqTurns msgs).length = msgs.length ∧
    (geminiHistory msgs).length = msgs.length ∧
    groqTurns [] = [] ∧
    geminiHistory [] = [] ∧
    List.Forall₂ (fun (m : Message) (t : GroqMsg) =>
      t.role = (if m.role = Role.user then "user" else "assistant") ∧
      (∀ a, m.attachment = some a → a.kind = AttachKind.text →
        t.content = m.content ++ ("\n[File]: " ++ a.content)) ∧
      (m.attachment = none → t.content = m.content)) msgs (groqTurns msgs) ∧
    List.Forall₂ (fun (m : Message) (t : GeminiTurn) =>
      t.role = (if m.role = Role.user then "user" else "model") ∧
      t.parts = [m.content]) msgs (geminiHistory msgs) := by
  refine ⟨by simp [groqTurns], by simp [geminiHistory], rfl, rfl, ?_, ?_⟩
  · rw [groqTurns, List.forall₂_map_right_iff, List.forall₂_same]
    intro m hm
    refine ⟨rfl, ?_, ?_⟩
    · intro a ha hk
      simp [toGroqTurn, ha, hk]
    · intro ha
      simp [toGroqTurn, ha]
  · rw [geminiHistory, List.forall₂_map_right_iff, List.forall₂_same]
    intro m hm
    exact ⟨rfl, rfl⟩

/-- C8 amended witness on a singleton history. -/
theorem c8_amended_witness :
    (groqTurns [msgWithFile]).length = [msgWithFile].length ∧
    (geminiHistory [msgWithFile]).length = [msgWithFile].length :=
  ⟨(c8_amended [msgWithFile]).1, (c8_amended [msgWithFile]).2.1⟩

/-- C2: for every request carrying an image attachment, the chain is a single
hop — Groq is never invoked and the Gemini text fallback is never attempted,
no backoff wait occurs, when the key is present exactly one vision call is
made, and a vision failure is raised to the caller unchanged. -/
theorem c2_image_single_hop (env : Env) (text : String) (subject : Subject)
    (prev : List Message) (a : Attachment) (hk : a.kind = AttachKind.image) :
    (sendMessage env text subject prev (some a)).groqCalls = 0 ∧
    (sendMessage env text subject prev (some a)).geminiTextCalls = 0 ∧
    (sendMessage env text subject prev (some a)).waits = [] ∧
    (falsyOpt env.geminiApiKey = false →
      (sendMessage env text subject prev (some a)).visionCalls = 1) ∧
    (∀ e, falsyOpt env.geminiApiKey = false →
      env.geminiVision (mkSystemInstruction subject) (visionParts text (some a)) = .error e →
      (sendMessage env text subject prev (some a)).result = .error e) := by
  have himg : hasImageOf (some a) = true := by simp [hasImageOf, hk]
  cases hgem : falsyOpt env.geminiApiKey with
  | true =>
    refine ⟨?_, ?_, ?_, ?_, ?_⟩ <;> simp [sendMessage, himg, hgem]
  | false =>
    cases hv : env.geminiVision (mkSystemInstruction subject) (visionParts text (some a)) with
    | ok s =>
      refine ⟨?_, ?_, ?_, ?_, ?_⟩ <;> simp [sendMessage, himg, hgem, hv]
    | error e =>
      refine ⟨?_, ?_, ?_, ?_, ?_⟩ <;> simp [sendMessage, himg, hgem, hv]

/-- Environment whose vision backend fails. -/
def envVision : Env :=
  { groqApiKey := some "gk", geminiApiKey := some "mk"
    groqRespond := fun _ => .ok (some "groq")
    geminiVision := fun _ _ => .error ⟨"vision down", none⟩
    geminiText := fun _ _ _ _ => .ok "gem" }

/-- C2 witness: with a failing vision stub, an image request raises the
vision error and never touches Groq or the text fallback. -/
theorem c2_witness :
    (sendMessage envVision "t" Subject.math [] (some ⟨"img64", AttachKind.image, none⟩)).groqCalls = 0 ∧
    (sendMessage envVision "t" Subject.math [] (some ⟨"img64", AttachKind.image, none⟩)).geminiTextCalls = 0 ∧
    (sendMessage envVision "t" Subject.math [] (some ⟨"img64", AttachKind.image, none⟩)).result =
      .error ⟨"vision down", none⟩ :=
  ⟨(c2_image_single_hop envVision "t" Subject.math [] ⟨"img64", AttachKind.image, none⟩ rfl).1,
    (c2_image_single_hop envVision "t" Subject.math [] ⟨"img64", AttachKind.image, none⟩ rfl).2.1,
    (c2_image_single_hop envVision "t" Subject.math [] ⟨"img64", AttachKind.image, none⟩ rfl).2.2.2.2
      ⟨"vision down", none⟩ rfl rfl⟩

/-- Environment where Groq fails and the Gemini fallback succeeds with the
empty string. -/
def envEmptyFallback : Env :=
  { groqApiKey := some "gk", geminiApiKey := some "mk"
    groqRespond := fun _ => .error ⟨"boom", none⟩
    geminiVision := fun _ _ => .ok "unused"
    geminiText := fun _ _ _ _ => .ok "" }

/-- C1 counterexample: with the primary Groq attempt failing and the Gemini
fallback succeeding with the empty string, sendMessage returns the empty
string to the caller even though no provider in the chain produced a
non-empty result — the returned text is not "that of the first provider in
the chain that produced a non-empty result". -/
theorem c1_counterexample :
    (sendMessage envEmptyFallback "q" Subject.general [] none).result = .ok "" ∧
    (sendMessage envEmptyFallback "q" Subject.general [] none).groqCalls = 1 ∧
    (sendMessage envEmptyFallback "q" Subject.general [] none).geminiTextCalls = 1 := by
  decide

/-- C1 amended: for a text-only request, if the primary Groq attempt fails
with any error and the Gemini fallback (plain-text mode) succeeds on its
first attempt with text s, sendMessage returns s — even when s is empty —
after exactly one Groq call and one fallback call. -/
theorem c1_amended (env : Env) (text : String) (subject : Subject) (prev : List Message)
    (att : Option Attachment) (e : ProviderErr) (s : String)
    (hni : hasImageOf att = false)
    (hg : falsyOpt env.groqApiKey = false)
    (hm : falsyOpt env.geminiApiKey = false)
    (he : env.groqRespond (groqMessages (mkSystemInstruction subject) prev
      (groqFinalPrompt text att)) = .error e)
    (hs : env.geminiText (mkSystemInstruction subject) (geminiHistory prev)
      (fallbackText text att) 0 = .ok s) :
    (sendMessage env text subject prev att).result = .ok s ∧
    (sendMessage env text subject prev att).groqCalls = 1 ∧
    (sendMessage env text subject prev att).geminiTextCalls = 1 := by
  have h1 : sendMessage env text subject prev att =
      fallbackOutcome env (mkSystemInstruction subject) prev (fallbackText text att) 1 := by
    simp [sendMessage, hni, hg, he]
  have h2 : retryLoop (env.geminiText (mkSystemInstruction subject) (geminiHistory prev)
      (fallbackText text att)) 1 = ⟨.ok s, 1, []⟩ := by
    simp [retryLoop, retryAux, hs]
  rw [h1]
  simp [fallbackOutcome, runFallback, hm, h2]

/-- Environment where Groq fails and the Gemini fallback succeeds with
"backup". -/
def envBackup : Env :=
  { groqApiKey := some "gk", geminiApiKey := some "mk"
    groqRespond := fun _ => .error ⟨"boom", none⟩
    geminiVision := fun _ _ => .ok "unused"
    geminiText := fun _ _ _ _ => .ok "backup" }

/-- C1 amended witness: Groq fails, the fallback answers "backup", and the
caller receives "backup". -/
theorem c1_amended_witness :
    (sendMessage envBackup "q" Subject.general [] none).result = .ok "backup" :=
  (c1_amended envBackup "q" Subject.general [] none ⟨"boom", none⟩ "backup"
    rfl rfl rfl rfl rfl).1

/-- Environment with the Groq key absent and a succeeding Gemini fallback. -/
def envNoGroqKey : Env :=
  { groqApiKey := none, geminiApiKey := some "mk"
    groqRespond := fun _ => .ok (some "never")
    geminiVision := fun _ _ => .ok "v"
    geminiText := fun _ _ _ _ => .ok "hi" }

/-- C5 counterexample: with the Groq API key missing and the Gemini fallback
succeeding, sendMessage returns the fallback's text — the missing-key
configuration error is treated as a fallback trigger and never reaches the
caller, contradicting the claim that it reaches the caller directly rather
than being treated as a fallback trigger. -/
theorem c5_counterexample :
    (sendMessage envNoGroqKey "q" Subject.general [] none).result = .ok "hi" ∧
    (sendMessage envNoGroqKey "q" Subject.general [] none).groqCalls = 0 := by
  decide

/-- C5 amended: a missing key is detected before any network attempt to that
provider and is never retried; but on the text route a missing Groq key acts
as a fallback trigger (zero Groq calls, the Gemini fallback proceeds and its
success is returned), and only a missing Gemini key in the fallback is raised
to the caller — before any Gemini attempt and with no backoff. -/
theorem c5_amended (env : Env) (text : String) (subject : Subject) (prev : List Message)
    (att : Option Attachment)
    (hni : hasImageOf att = false)
    (hg : falsyOpt env.groqApiKey = true) :
    (sendMessage env text subject prev att).groqCalls = 0 ∧
    (falsyOpt env.geminiApiKey = true →
      (sendMessage env text subject prev att).result = .error ⟨"Gemini API Key missing", none⟩ ∧
      (sendMessage env text subject prev att).geminiTextCalls = 0 ∧
      (sendMessage env text subject prev att).waits = []) ∧
    (∀ s, falsyOpt env.geminiApiKey = false →
      env.geminiText (mkSystemInstruction subject) (geminiHistory prev)
        (fallbackText text att) 0 = .ok s →
      (sendMessage env text subject prev att).result = .ok s) := by
  have h1 : sendMessage env text subject prev att =
      fallbackOutcome env (mkSystemInstruction subject) prev (fallbackText text att) 0 := by
    simp [sendMessage, hni, hg]
  refine ⟨?_, ?_, ?_⟩
  · rw [h1]; simp [fallbackOutcome]
  · intro hgm
    rw [h1]
    simp [fallbackOutcome, runFallback, hgm]
  · intro s hgm hs
    have h2 : retryLoop (env.geminiText (mkSystemInstruction subject) (geminiHistory prev)
        (fallbackText text att)) 1 = ⟨.ok s, 1, []⟩ := by
      simp [retryLoop, retryAux, hs]
    rw [h1]
    simp [fallbackOutcome, runFallback, hgm, h2]

/-- C5 amended witness: missing Groq key, fallback answers "hi". -/
theorem c5_amended_witness :
    (sendMessage envNoGroqKey "q" Subject.general [] none).groqCalls = 0 ∧
    (sendMessage envNoGroqKey "q" Subject.general [] none).result = .ok "hi" :=
  ⟨(c5_amended envNoGroqKey "q" Subject.general [] none rfl rfl).1,
    (c5_amended envNoGroqKey "q" Subject.general [] none rfl rfl).2.2 "hi" rfl rfl⟩

/-- Environment whose Groq backend fails rate-limited and whose Gemini
fallback succeeds. -/
def envGroq429 : Env :=
  { groqApiKey := some "gk", geminiApiKey := some "mk"
    groqRespond := fun _ => .error ⟨"Rate limit: 429", some 429⟩
    geminiVision := fun _ _ => .ok "v"
    geminiText := fun _ _ _ _ => .ok "backup" }

/-- C6 counterexample: the primary Groq hop is not wrapped in the retry
policy — even when Groq fails with a rate-limited (429) error, exactly one
Groq call is made, no backoff wait occurs, and the router falls straight
through to the Gemini fallback. -/
theorem c6_counterexample :
    is429 ⟨"Rate limit: 429", some 429⟩ = true ∧
    (sendMessage envGroq429 "q" Subject.general [] none).groqCalls = 1 ∧
    (sendMessage envGroq429 "q" Subject.general [] none).waits = [] ∧
    (sendMessage envGroq429 "q" Subject.general [] none).result = .ok "backup" := by
  decide

/-- C6 amended: in the text-only chain only the fallback hop goes through the
retry policy: the primary Groq call is made exactly once (any failure of it
immediately triggers fallback), while the fallback's attempt count, backoff
waits and result are exactly those of the retry policy (maxRetries = 1)
applied to the Gemini text provider. -/
theorem c6_amended (env : Env) (text : String) (subject : Subject) (prev : List Message)
    (att : Option Attachment) (e : ProviderErr)
    (hni : hasImageOf att = false)
    (hg : falsyOpt env.groqApiKey = false)
    (hm : falsyOpt env.geminiApiKey = false)
    (he : env.groqRespond (groqMessages (mkSystemInstruction subject) prev
      (groqFinalPrompt text att)) = .error e) :
    (sendMessage env text subject prev att).groqCalls = 1 ∧
    (sendMessage env text subject prev att).geminiTextCalls =
      (retryLoop (env.geminiText (mkSystemInstruction subject) (geminiHistory prev)
        (fallbackText text att)) 1).attempts ∧
    (sendMessage env text subject prev att).waits =
      (retryLoop (env.geminiText (mkSystemInstruction subject) (geminiHistory prev)
        (fallbackText text att)) 1).waits ∧
    (sendMessage env text subject prev att).result =
      (retryLoop (env.geminiText (mkSystemInstruction subject) (geminiHistory prev)
        (fallbackText text att)) 1).result := by
  have h1 : sendMessage env text subject prev att =
      fallbackOutcome env (mkSystemInstruction subject) prev (fallbackText text att) 1 := by
    simp [sendMessage, hni, hg, he]
  rw [h1]
  simp only [fallbackOutcome, runFallback, hm, Bool.false_eq_true, if_false]
  cases hr : (retryLoop (env.geminiText (mkSystemInstruction subject) (geminiHistory prev)
      (fallbackText text att)) 1).result with
  | ok s => simp [hr]
  | error e2 => simp [hr]

/-- C6 amended witness: a rate-limited Groq failure triggers a single Groq
call and a single successful fallback attempt. -/
theorem c6_amended_witness :
    (sendMessage envGroq429 "q" Subject.general [] none).groqCalls = 1 ∧
    (sendMessage envGroq429 "q" Subject.general [] none).result =
      (retryLoop (envGroq429.geminiText (mkSystemInstruction Subject.general) (geminiHistory [])
        (fallbackText "q" none)) 1).result :=
  ⟨(c6_amended envGroq429 "q" Subject.general [] none ⟨"Rate limit: 429", some 429⟩
      rfl rfl rfl rfl).1,
    (c6_amended envGroq429 "q" Subject.general [] none ⟨"Rate limit: 429", some 429⟩
      rfl rfl rfl rfl).2.2.2⟩

/-- Environment where the primary Groq call succeeds immediately. -/
def envGroqOk : Env :=
  { groqApiKey := some "gk", geminiApiKey := some "mk"
    groqRespond := fun _ => .ok (some "answer")
    geminiVision := fun _ _ => .ok "v"
    geminiText := fun _ _ _ _ => .ok "g" }

/-- C3: evaluation at the failing inputs — this `sendMessage` has no
`finally` block, so after a completed call (primary success or fallback
success alike) the busy flag `isLoading` is still true, and after a fallback
success the status message is still "Traffic high. Switching to backup
AI..." rather than cleared. -/
theorem c3_busy_flag_bug :
    (sendMessage envGroqOk "q" Subject.general [] none).result = .ok "answer" ∧
    (sendMessage envGroqOk "q" Subject.general [] none).isLoading = true ∧
    (sendMessage envBackup "q" Subject.general [] none).result = .ok "backup" ∧
    (sendMessage envBackup "q" Subject.general [] none).isLoading = true ∧
    (sendMessage envBackup "q" Subject.general [] none).statusMessage =
      some "Traffic high. Switching to backup AI..." := by
  decide

end Omnitutor
